import Mathlib

/-!
Shallow embedding of the PaymentService (src/PaymentService/main.py):
an in-memory payment-intent store with three operations,
`create_payment_intent`, `get_payment` and `payment_webhook`.

Environment-supplied values that Python obtains at runtime (the current
UTC time from `_now()`, fresh identifiers from `uuid.uuid4()`) are passed
as explicit parameters: time as a `Nat` tick, identifiers as `String`s.
`float` amounts are modelled as `Rat` (the code performs no arithmetic on
them beyond storing the given value or the fixed default 100.0).
The global dict `PAYMENT_STORE` is modelled as a function
`String → Option PaymentIntent`, with dict assignment as pointwise update.
-/

namespace PaymentService

/-- Payment status values, mirroring the `PaymentStatus` string constants. -/
inductive PaymentStatus where
  | requires_payment_method
  | requires_confirmation
  | processing
  | succeeded
  | failed
  | cancelled
  | refunded
deriving DecidableEq, Repr

/-- Payment methods, mirroring the `Literal["card","wallet","upi","cod"]` type. -/
inductive PaymentMethod where
  | card
  | wallet
  | upi
  | cod
deriving DecidableEq, Repr

/-- The stored payment-intent record (the dict built in
`create_payment_intent` lines 128-138; also the `PaymentIntent` response
model). `provider` and `clientSecret` are always populated by creation. -/
structure PaymentIntent where
  id : String
  orderId : String
  amount : Rat
  currency : String
  status : PaymentStatus
  provider : String
  clientSecret : String
  createdAt : Nat
  updatedAt : Nat
deriving DecidableEq, Repr

/-- The global in-memory store `PAYMENT_STORE : Dict[str, Dict]`,
modelled as a partial map from ids to records. -/
def Store : Type := String → Option PaymentIntent

/-- Dict assignment `PAYMENT_STORE[k] = v`. -/
def Store.set (store : Store) (k : String) (v : PaymentIntent) : Store :=
  fun q => if q = k then some v else store q

/-- The store `PAYMENT_STORE.get k` read. -/
def Store.get (store : Store) (k : String) : Option PaymentIntent := store k

/-- The empty store (initial value of `PAYMENT_STORE`). -/
def Store.empty : Store := fun _ => none

/-- Request model `CreatePaymentIntentRequest`. `amount = none` models an
absent or null JSON amount; `currency = none` models an explicit null
(an absent currency is defaulted to `some "INR"` by the request layer). -/
structure CreatePaymentIntentRequest where
  orderId : String
  method : PaymentMethod
  amount : Option Rat
  currency : Option String
deriving DecidableEq, Repr

/-- Webhook request model `WebhookEvent`, with `type` as the raw string
carried by the request (the typed restriction to five literals is modelled
separately by `WebhookEventType`). `metadata` is an opaque payload. -/
structure WebhookEvent where
  type : String
  paymentId : String
  orderId : Option String
  metadata : Option String
deriving DecidableEq, Repr

/-- Error conditions raised by the handlers: HTTP 404 (`NotFound`) and
HTTP 400 for an unsupported event type (`UnsupportedEvent`). -/
inductive ApiError where
  | NotFound
  | UnsupportedEvent
deriving DecidableEq, Repr

/-- `_default_amount()`: the fixed mock amount 100.0. -/
def _default_amount : Rat := 100

/-- Line 121: `amount = payload.amount if payload.amount is not None else _default_amount()`. -/
def resolveAmount (a : Option Rat) : Rat :=
  match a with
  | some x => x
  | none => _default_amount

/-- Line 122: `currency = payload.currency or "INR"` (`None` and the empty
string are both falsy in Python). -/
def resolveCurrency (c : Option String) : String :=
  match c with
  | none => "INR"
  | some s => if s = "" then "INR" else s

/-- Handler `create_payment_intent` (lines 113-141). `intent_id` is the
fresh `uuid.uuid4()` string, `created_at` the `_now()` timestamp, and
`secretSuffix` the random `uuid.uuid4().hex[:16]` fragment; all three are
environment-supplied. Returns the response record and the updated store. -/
def create_payment_intent (payload : CreatePaymentIntentRequest)
    (intent_id : String) (created_at : Nat) (secretSuffix : String)
    (store : Store) : PaymentIntent × Store :=
  let record : PaymentIntent :=
    { id := intent_id
      orderId := payload.orderId
      amount := resolveAmount payload.amount
      currency := resolveCurrency payload.currency
      status := PaymentStatus.requires_confirmation
      provider := "mockpay"
      clientSecret := "pi_" ++ intent_id ++ "_secret_" ++ secretSuffix
      createdAt := created_at
      updatedAt := created_at }
  (record, store.set intent_id record)

/-- Handler `get_payment` (lines 151-161): 404 when the id is absent,
otherwise the stored record. It performs no write. -/
def get_payment (store : Store) (paymentId : String) :
    Except ApiError PaymentIntent :=
  match store.get paymentId with
  | none => Except.error ApiError.NotFound
  | some record => Except.ok record

/-- The `status_map` dict of `payment_webhook` (lines 183-189), read with
`.get` so an unrecognized type yields `none`. -/
def status_map (t : String) : Option PaymentStatus :=
  if t = "payment_intent.succeeded" then some PaymentStatus.succeeded
  else if t = "payment_intent.failed" then some PaymentStatus.failed
  else if t = "payment_intent.processing" then some PaymentStatus.processing
  else if t = "payment_intent.canceled" then some PaymentStatus.cancelled
  else if t = "payment_intent.refunded" then some PaymentStatus.refunded
  else none

/-- Handler `payment_webhook` (lines 170-201): looks the record up first
(404 when absent), then maps the event type (400 when unrecognized), then
sets `status` and `updatedAt` and writes the record back. `now` is the
`_now()` timestamp. The returned store is unchanged on either error. -/
def payment_webhook (event : WebhookEvent) (now : Nat) (store : Store) :
    Except ApiError PaymentIntent × Store :=
  match store.get event.paymentId with
  | none => (Except.error ApiError.NotFound, store)
  | some record =>
    match status_map event.type with
    | none => (Except.error ApiError.UnsupportedEvent, store)
    | some new_status =>
      let updated : PaymentIntent :=
        { record with status := new_status, updatedAt := now }
      (Except.ok updated, store.set event.paymentId updated)

/-- The five event types admitted by the typed `WebhookEvent` model
(`Literal[...]` on the `type` field, lines 83-89). -/
inductive WebhookEventType where
  | succeeded
  | failed
  | processing
  | canceled
  | refunded
deriving DecidableEq, Repr

/-- The raw string carried by each typed event. -/
def WebhookEventType.raw : WebhookEventType → String
  | WebhookEventType.succeeded => "payment_intent.succeeded"
  | WebhookEventType.failed => "payment_intent.failed"
  | WebhookEventType.processing => "payment_intent.processing"
  | WebhookEventType.canceled => "payment_intent.canceled"
  | WebhookEventType.refunded => "payment_intent.refunded"

/-- The fixed event-to-status mapping of the §4 state machine table. -/
def WebhookEventType.target : WebhookEventType → PaymentStatus
  | WebhookEventType.succeeded => PaymentStatus.succeeded
  | WebhookEventType.failed => PaymentStatus.failed
  | WebhookEventType.processing => PaymentStatus.processing
  | WebhookEventType.canceled => PaymentStatus.cancelled
  | WebhookEventType.refunded => PaymentStatus.refunded

/-- A batch of creations, folding `create_payment_intent` over a list of
(payload, fresh id, timestamp, secret suffix) tuples. -/
def createAll (reqs : List (CreatePaymentIntentRequest × String × Nat × String))
    (store : Store) : Store :=
  reqs.foldl
    (fun s q => (create_payment_intent q.1 q.2.1 q.2.2.1 q.2.2.2 s).2) store

/-- Timestamp sanity of a store at clock value `now`: every record was
created no later than it was updated, and updated no later than `now`. -/
def TimeInv (store : Store) (now : Nat) : Prop :=
  ∀ k r, store.get k = some r → r.createdAt ≤ r.updatedAt ∧ r.updatedAt ≤ now

/-- Sample creation payload used by concrete witnesses. -/
def samplePayload : CreatePaymentIntentRequest :=
  { orderId := "ord-1", method := PaymentMethod.card,
    amount := none, currency := some "INR" }

/-- The record created from `samplePayload` at tick 3. -/
def sampleRecord : PaymentIntent :=
  (create_payment_intent samplePayload "pid-1" 3 "sec" Store.empty).1

/-- A store holding exactly `sampleRecord` under "pid-1". -/
def sampleStore : Store :=
  (create_payment_intent samplePayload "pid-1" 3 "sec" Store.empty).2

/-- A webhook event on "pid-1" with the succeeded type, for witnesses. -/
def sampleEvent : WebhookEvent :=
  { type := "payment_intent.succeeded", paymentId := "pid-1",
    orderId := none, metadata := none }

/-- A webhook event on "pid-1" with an unrecognized type, for witnesses. -/
def badTypeEvent : WebhookEvent :=
  { type := "payment_intent.bogus", paymentId := "pid-1",
    orderId := none, metadata := none }

/-- A creation payload for order "ord-A", used in concrete scenarios. -/
def dupPayloadA : CreatePaymentIntentRequest :=
  { orderId := "ord-A", method := PaymentMethod.card,
    amount := none, currency := none }

/-- A creation payload for order "ord-B", used in concrete scenarios. -/
def dupPayloadB : CreatePaymentIntentRequest :=
  { orderId := "ord-B", method := PaymentMethod.card,
    amount := none, currency := none }

/-- A creation payload supplying a negative amount (-5), which the code
accepts without validation. -/
def negAmountPayload : CreatePaymentIntentRequest :=
  { orderId := "ord-neg", method := PaymentMethod.card,
    amount := some (-5), currency := none }

end PaymentService

namespace PaymentService

/-- Helper: the reduced form of `payment_webhook` when the record exists
and the event type is recognized. -/
theorem payment_webhook_ok_eq
    (ev : WebhookEvent) (now : Nat) (store : Store)
    (rec : PaymentIntent) (st : PaymentStatus)
    (hr : store.get ev.paymentId = some rec)
    (hm : status_map ev.type = some st) :
    payment_webhook ev now store =
      (Except.ok { rec with status := st, updatedAt := now },
       store.set ev.paymentId { rec with status := st, updatedAt := now }) := by
  simp [payment_webhook, hr, hm]

/-- Claim C1: for every stored record and every webhook event whose type is
one of the five recognized values, `payment_webhook` sets the record's
status to the target of the fixed mapping and `updatedAt` to the current
time, stores the updated record, and returns it — with no guard on the
record's current status (the hypotheses never mention it). -/
theorem webhook_applies_mapped_status
    (store : Store) (ev : WebhookEvent) (now : Nat) (r : PaymentIntent)
    (et : WebhookEventType)
    (hr : store.get ev.paymentId = some r)
    (ht : ev.type = et.raw) :
    payment_webhook ev now store =
      (Except.ok { r with status := et.target, updatedAt := now },
       store.set ev.paymentId { r with status := et.target, updatedAt := now }) := by
  cases et <;>
    simp [payment_webhook, hr, ht, status_map,
      WebhookEventType.raw, WebhookEventType.target]

/-- Witness for C1: applying the succeeded event to the sample store at
tick 7 yields the sample record with status succeeded and updatedAt 7. -/
theorem webhook_applies_mapped_status_witness :
    payment_webhook sampleEvent 7 sampleStore =
      (Except.ok { sampleRecord with status := PaymentStatus.succeeded, updatedAt := 7 },
       sampleStore.set "pid-1"
         { sampleRecord with status := PaymentStatus.succeeded, updatedAt := 7 }) :=
  webhook_applies_mapped_status sampleStore sampleEvent 7 sampleRecord
    WebhookEventType.succeeded
    (by simp [sampleStore, sampleRecord, sampleEvent, create_payment_intent,
          Store.get, Store.set, Store.empty])
    rfl

/-- Claim C2: every creation returns an intent with status
requires_confirmation, provider "mockpay" and createdAt = updatedAt, and
stores it under its id, so an immediate `get_payment` returns the very
same record. -/
theorem create_intent_initial_state
    (payload : CreatePaymentIntentRequest) (intent_id : String)
    (created_at : Nat) (secretSuffix : String) (store : Store) :
    (create_payment_intent payload intent_id created_at secretSuffix store).1.status =
      PaymentStatus.requires_confirmation ∧
    (create_payment_intent payload intent_id created_at secretSuffix store).1.provider =
      "mockpay" ∧
    (create_payment_intent payload intent_id created_at secretSuffix store).1.createdAt =
      (create_payment_intent payload intent_id created_at secretSuffix store).1.updatedAt ∧
    get_payment (create_payment_intent payload intent_id created_at secretSuffix store).2
        (create_payment_intent payload intent_id created_at secretSuffix store).1.id =
      Except.ok (create_payment_intent payload intent_id created_at secretSuffix store).1 := by
  refine ⟨rfl, rfl, rfl, ?_⟩
  simp [create_payment_intent, get_payment, Store.get, Store.set]

/-- Claim C3: `get_payment` yields NotFound exactly when the id is absent;
`payment_webhook` yields NotFound exactly when the paymentId is absent
(existence is checked before the event type); it yields UnsupportedEvent
when the record exists but the type is unrecognized, and only for
unrecognized types; and on every error the store is returned unchanged
(`get_payment` performs no write at all, by its type). -/
theorem handler_errors_characterized
    (store : Store) (ev : WebhookEvent) (now : Nat) (pid : String) :
    (get_payment store pid = Except.error ApiError.NotFound ↔ store.get pid = none) ∧
    ((payment_webhook ev now store).1 = Except.error ApiError.NotFound ↔
      store.get ev.paymentId = none) ∧
    (store.get ev.paymentId ≠ none → status_map ev.type = none →
      (payment_webhook ev now store).1 = Except.error ApiError.UnsupportedEvent) ∧
    ((payment_webhook ev now store).1 = Except.error ApiError.UnsupportedEvent →
      status_map ev.type = none) ∧
    (∀ e, (payment_webhook ev now store).1 = Except.error e →
      (payment_webhook ev now store).2 = store) := by
  refine ⟨?_, ?_, ?_, ?_, ?_⟩
  · unfold get_payment
    rcases h : store.get pid <;> simp [h]
  · unfold payment_webhook
    rcases h : store.get ev.paymentId <;> simp [h]
    rcases hm : status_map ev.type <;> simp [hm]
  · intro hne hm
    unfold payment_webhook
    rcases h : store.get ev.paymentId <;> simp [h, hm]
    exact absurd h hne
  · intro hu
    rcases h : store.get ev.paymentId with _ | r
    · simp [payment_webhook, h] at hu
    · rcases hm : status_map ev.type with _ | st
      · rfl
      · simp [payment_webhook, h, hm] at hu
  · intro e he
    rcases h : store.get ev.paymentId with _ | r
    · simp [payment_webhook, h]
    · rcases hm : status_map ev.type with _ | st
      · simp [payment_webhook, h, hm]
      · simp [payment_webhook, h, hm] at he

/-- Witness for C3: on the sample store, a recognized type on an unknown
id is NotFound, an unrecognized type on the known id is UnsupportedEvent,
and the store comes back unchanged from the latter. -/
theorem handler_errors_characterized_witness :
    get_payment sampleStore "missing" = Except.error ApiError.NotFound ∧
    (payment_webhook badTypeEvent 7 sampleStore).1 =
      Except.error ApiError.UnsupportedEvent ∧
    (payment_webhook badTypeEvent 7 sampleStore).2 = sampleStore := by
  have h := handler_errors_characterized sampleStore badTypeEvent 7 "missing"
  have hget : Store.get sampleStore "missing" = none := by
    simp [sampleStore, create_payment_intent, Store.get, Store.set, Store.empty]
  have hsome : Store.get sampleStore badTypeEvent.paymentId ≠ none := by
    simp [sampleStore, badTypeEvent, create_payment_intent,
      Store.get, Store.set, Store.empty]
  have hmap : status_map badTypeEvent.type = none := by
    simp [status_map, badTypeEvent]
  have hu := h.2.2.1 hsome hmap
  exact ⟨h.1.mpr hget, hu, h.2.2.2.2 ApiError.UnsupportedEvent hu⟩

/-- Claim C9: a creation with absent/null amount stores 100.0; with
absent-null or empty currency stores "INR"; supplied non-empty values are
stored as given. -/
theorem create_intent_defaults
    (payload : CreatePaymentIntentRequest) (intent_id : String)
    (created_at : Nat) (secretSuffix : String) (store : Store) :
    (payload.amount = none →
      (create_payment_intent payload intent_id created_at secretSuffix store).1.amount = 100) ∧
    (payload.currency = none ∨ payload.currency = some "" →
      (create_payment_intent payload intent_id created_at secretSuffix store).1.currency = "INR") ∧
    (∀ a, payload.amount = some a →
      (create_payment_intent payload intent_id created_at secretSuffix store).1.amount = a) ∧
    (∀ c, payload.currency = some c → c ≠ "" →
      (create_payment_intent payload intent_id created_at secretSuffix store).1.currency = c) := by
  refine ⟨?_, ?_, ?_, ?_⟩
  · intro h
    simp [create_payment_intent, resolveAmount, _default_amount, h]
  · rintro (h | h) <;> simp [create_payment_intent, resolveCurrency, h]
  · intro a h
    simp [create_payment_intent, resolveAmount, h]
  · intro c h hne
    simp [create_payment_intent, resolveCurrency, h, hne]

/-- Witness for C9: the sample payload (absent amount, currency "INR")
yields amount 100 and currency "INR", and a payload supplying 250.5 and
"USD" stores exactly those. -/
theorem create_intent_defaults_witness :
    (create_payment_intent samplePayload "pid-1" 3 "sec" Store.empty).1.amount = 100 ∧
    (create_payment_intent
      { orderId := "ord-2", method := PaymentMethod.upi,
        amount := some (501/2 : Rat), currency := some "USD" }
      "pid-2" 4 "sec2" Store.empty).1.currency = "USD" := by
  have h1 := create_intent_defaults samplePayload "pid-1" 3 "sec" Store.empty
  have h2 := create_intent_defaults
    { orderId := "ord-2", method := PaymentMethod.upi,
      amount := some (501/2 : Rat), currency := some "USD" }
    "pid-2" 4 "sec2" Store.empty
  exact ⟨h1.1 rfl, h2.2.2.2 "USD" rfl (by decide)⟩

/-- Claim C10: every event admitted by the typed request model maps to a
status (`status_map` succeeds on all five literals), so the webhook
handler's UnsupportedEvent branch can never fire for a typed event. -/
theorem typed_webhook_never_unsupported
    (et : WebhookEventType) (pid : String) (o m : Option String)
    (now : Nat) (store : Store) :
    status_map et.raw = some et.target ∧
    (payment_webhook
        { type := et.raw, paymentId := pid, orderId := o, metadata := m }
        now store).1 ≠ Except.error ApiError.UnsupportedEvent := by
  have hmap : status_map et.raw = some et.target := by
    cases et <;> rfl
  refine ⟨hmap, ?_⟩
  unfold payment_webhook
  rcases h : store.get pid <;> simp [h, hmap]

/-- Claim C4 counterexample: identifiers come from `uuid.uuid4()`, a random
source the code never deduplicates, so distinctness of generated ids is not
guaranteed by the code; when the environment yields the same identifier
"dup" twice, the second creation silently overwrites the first record. -/
theorem create_duplicate_id_overwrites :
    (createAll [(dupPayloadA, "dup", 0, "s1"), (dupPayloadB, "dup", 1, "s2")]
        Store.empty).get "dup" ≠
      some (create_payment_intent dupPayloadA "dup" 0 "s1" Store.empty).1 := by
  decide

/-- Claim C4 (amended): provided the environment-supplied identifiers are
fresh — not equal to any key already present — a batch of creations
overwrites nothing: every record stored beforehand is still stored,
unchanged, afterwards (and with pairwise-distinct fresh ids, N calls add N
distinct records). -/
theorem create_fresh_ids_no_overwrite
    (reqs : List (CreatePaymentIntentRequest × String × Nat × String))
    (store : Store) (k : String) (r : PaymentIntent)
    (h : store.get k = some r)
    (hfresh : ∀ q ∈ reqs, q.2.1 ≠ k) :
    (createAll reqs store).get k = some r := by
  induction reqs generalizing store with
  | nil => exact h
  | cons q qs ih =>
    have hne : ¬ (k = q.2.1) := fun hk =>
      hfresh q (List.mem_cons_self q qs) hk.symm
    have hk : ((create_payment_intent q.1 q.2.1 q.2.2.1 q.2.2.2 store).2).get k =
        some r := by
      simpa [create_payment_intent, Store.get, Store.set, hne] using h
    exact ih (create_payment_intent q.1 q.2.1 q.2.2.1 q.2.2.2 store).2 hk
      (fun p hp => hfresh p (List.mem_cons_of_mem q hp))

/-- Witness for amended C4: a later creation under the fresh id "pid-2"
leaves the record stored under "pid-1" intact. -/
theorem create_fresh_ids_no_overwrite_witness :
    (createAll [(dupPayloadA, "pid-2", 9, "s9")] sampleStore).get "pid-1" =
      some sampleRecord :=
  create_fresh_ids_no_overwrite [(dupPayloadA, "pid-2", 9, "s9")]
    sampleStore "pid-1" sampleRecord
    (by simp [sampleStore, sampleRecord, create_payment_intent,
          Store.get, Store.set, Store.empty])
    (by decide)

/-- Claim C6 counterexample: the code validates nothing about the amount,
so a creation supplying -5 stores a record whose amount is negative. -/
theorem create_negative_amount_stored :
    (create_payment_intent negAmountPayload "pid-neg" 0 "s" Store.empty).1.amount < 0 := by
  decide

/-- Claim C6 (amended): the stored amount is non-negative exactly when the
input is: an absent/null amount defaults to 100 ≥ 0, a supplied
non-negative amount is stored as given, and a successful webhook never
changes the amount; the code itself applies no validation, so a negative
supplied amount is stored as-is. -/
theorem amount_nonneg_when_input_nonneg
    (payload : CreatePaymentIntentRequest) (intent_id : String)
    (created_at : Nat) (suf : String) (store : Store)
    (h : ∀ a, payload.amount = some a → 0 ≤ a) :
    0 ≤ (create_payment_intent payload intent_id created_at suf store).1.amount ∧
    (∀ ev now r, store.get ev.paymentId = some r →
      ∀ u, (payment_webhook ev now store).1 = Except.ok u → u.amount = r.amount) := by
  constructor
  · rcases ha : payload.amount with _ | a
    · simp [create_payment_intent, resolveAmount, _default_amount, ha]
    · simpa [create_payment_intent, resolveAmount, ha] using h a ha
  · intro ev now r hr u hok
    rcases hm : status_map ev.type with _ | st
    · simp [payment_webhook, hr, hm] at hok
    · rw [payment_webhook_ok_eq ev now store r st hr hm] at hok
      simp at hok
      subst hok
      rfl

/-- Witness for amended C6: the sample creation (absent amount) stores a
non-negative amount. -/
theorem amount_nonneg_when_input_nonneg_witness : 0 ≤ sampleRecord.amount :=
  (amount_nonneg_when_input_nonneg samplePayload "pid-1" 3 "sec" Store.empty
    (by simp [samplePayload])).1

/-- Claim C7: updatedAt ≥ createdAt at every point of a record's lifetime:
the two are equal at creation, and both operations preserve the store-wide
invariant whenever the call's clock value `now` is at least every
timestamp already in the store (the clock never runs backwards). -/
theorem updatedAt_ge_createdAt
    (payload : CreatePaymentIntentRequest) (intent_id suf : String)
    (store : Store) (t now : Nat) :
    (create_payment_intent payload intent_id now suf store).1.createdAt =
      (create_payment_intent payload intent_id now suf store).1.updatedAt ∧
    (TimeInv store t → t ≤ now →
      TimeInv (create_payment_intent payload intent_id now suf store).2 now) ∧
    (∀ ev, TimeInv store t → t ≤ now →
      TimeInv (payment_webhook ev now store).2 now) := by
  refine ⟨rfl, ?_, ?_⟩
  · intro hinv hle k r hk
    simp only [create_payment_intent, Store.get, Store.set] at hk
    by_cases hki : k = intent_id
    · rw [if_pos hki] at hk
      cases hk
      exact ⟨Nat.le_refl now, Nat.le_refl now⟩
    · rw [if_neg hki] at hk
      obtain ⟨h1, h2⟩ := hinv k r hk
      exact ⟨h1, h2.trans hle⟩
  · intro ev hinv hle k r hk
    rcases hr : store.get ev.paymentId with _ | rec
    · simp only [payment_webhook, hr] at hk
      obtain ⟨h1, h2⟩ := hinv k r hk
      exact ⟨h1, h2.trans hle⟩
    · rcases hm : status_map ev.type with _ | st
      · simp only [payment_webhook, hr, hm] at hk
        obtain ⟨h1, h2⟩ := hinv k r hk
        exact ⟨h1, h2.trans hle⟩
      · rw [payment_webhook_ok_eq ev now store rec st hr hm] at hk
        simp only [Store.get, Store.set] at hk
        by_cases hki : k = ev.paymentId
        · rw [if_pos hki] at hk
          cases hk
          obtain ⟨h1, h2⟩ := hinv ev.paymentId rec hr
          exact ⟨(h1.trans h2).trans hle, Nat.le_refl now⟩
        · rw [if_neg hki] at hk
          obtain ⟨h1, h2⟩ := hinv k r hk
          exact ⟨h1, h2.trans hle⟩

/-- Witness for C7: starting from the empty store (vacuously sane at tick
0), the sample creation at tick 3 yields a store satisfying the timestamp
invariant at tick 3. -/
theorem updatedAt_ge_createdAt_witness : TimeInv sampleStore 3 :=
  (updatedAt_ge_createdAt samplePayload "pid-1" "sec" Store.empty 0 3).2.1
    (fun k r hk => absurd hk (by simp [Store.empty, Store.get]))
    (Nat.zero_le 3)

/-- Claim C8: a successful webhook mutates exactly the record under
`paymentId`, changing only its status and updatedAt — id, orderId, amount,
currency, provider, clientSecret and createdAt survive — every other key
of the store is untouched, and the event's own orderId/metadata inputs are
never persisted: the handler's entire result is independent of them. -/
theorem webhook_frame
    (ev : WebhookEvent) (now : Nat) (store : Store)
    (r : PaymentIntent) (st : PaymentStatus)
    (hr : store.get ev.paymentId = some r)
    (hm : status_map ev.type = some st) :
    ∃ u, payment_webhook ev now store = (Except.ok u, store.set ev.paymentId u) ∧
      u.id = r.id ∧ u.orderId = r.orderId ∧ u.amount = r.amount ∧
      u.currency = r.currency ∧ u.provider = r.provider ∧
      u.clientSecret = r.clientSecret ∧ u.createdAt = r.createdAt ∧
      (∀ k, k ≠ ev.paymentId → (store.set ev.paymentId u).get k = store.get k) ∧
      (∀ o m, payment_webhook { ev with orderId := o, metadata := m } now store =
        payment_webhook ev now store) := by
  refine ⟨{ r with status := st, updatedAt := now },
    ?_, rfl, rfl, rfl, rfl, rfl, rfl, rfl, ?_, ?_⟩
  · simp [payment_webhook, hr, hm]
  · intro k hk
    simp [Store.get, Store.set, hk]
  · intro o m
    rfl

/-- Witness for C8: applying the succeeded event to the sample store
leaves the (absent) entry under "other-id" exactly as it was. -/
theorem webhook_frame_witness :
    ((payment_webhook sampleEvent 7 sampleStore).2).get "other-id" =
      sampleStore.get "other-id" := by
  obtain ⟨u, heq, -, -, -, -, -, -, -, hframe, -⟩ :=
    webhook_frame sampleEvent 7 sampleStore sampleRecord PaymentStatus.succeeded
      (by simp [sampleStore, sampleRecord, sampleEvent, create_payment_intent,
            Store.get, Store.set, Store.empty])
      rfl
  rw [congrArg Prod.snd heq]
  exact hframe "other-id" (by decide)

end PaymentService
